import Mathlib

/-!
Verification development for the optidash-go client library.

Shallow embedding of the request builder (`Request`, its step setters,
`execute`) and the response resolver (`ToJSON`, `ToReader`, `ToFile`,
`CopyTo`) from `request.go`, together with the error values from
`errors.go` and the client from `client.go`.

External collaborators are modelled at their interfaces, exactly as the
code uses them:
- the JSON parser (valyala/fastjson) is an opaque parameter returning a
  generic tree value (`Json`); a parse may yield a nil tree pointer, which
  the code's nil-checks branch on, so parse results are `Option Json`;
- the HTTP transport is a function from the built request to a response
  or a transport error;
- the file system is an explicit association of paths to (permission,
  content), with a set of paths on which opening for write fails.

Resource bookkeeping that the Go code performs through defer/Close is made
observable: every operation's outcome records the list of HTTP requests it
performed, whether the network response body was closed, and (for ToFile)
whether the local file was closed and the resulting file system.
-/

/-- Generic JSON tree value, mirroring fastjson.Value. -/
inductive Json where
  | null
  | bool (b : Bool)
  | num (n : Int)
  | str (s : String)
  | arr (elems : List Json)
  | obj (fields : List (String × Json))

/-- First-match lookup in a JSON object's field list (fastjson object Get). -/
def lookupField : List (String × Json) → String → Option Json
  | [], _ => none
  | (k, x) :: rest, key => if k = key then some x else lookupField rest key

/-- fastjson Value.Get: field lookup, nil on non-objects and missing keys. -/
def Json.get (v : Json) (key : String) : Option Json :=
  match v with
  | .obj fields => lookupField fields key
  | _ => none

/-- fastjson Value.Bool: succeeds only on a JSON boolean. -/
def Json.asBool : Json → Option Bool
  | .bool b => some b
  | _ => none

/-- fastjson Value.Int: succeeds only on an (integer) JSON number. -/
def Json.asInt : Json → Option Int
  | .num n => some n
  | _ => none

/-- fastjson Value.StringBytes: succeeds only on a JSON string. -/
def Json.asStr : Json → Option String
  | .str s => some s
  | _ => none

/-- P, the parameter hash passed to every step setter (map[string]interface\x7b\x7d). -/
abbrev Bag := List (String × Json)

/-- The error values of errors.go, plus remote API errors (OptidashError)
and injected local I/O, transport and parse errors. -/
inductive GoError where
  | invalidSourceType
  | binaryWebhook
  | binaryStorage
  | noSuccess
  | optidash (code : Int) (message : String)
  | ioErr (tag : String)
deriving DecidableEq

/-- The three request sources of request.go. -/
inductive Source where
  | readerSource
  | pathSource
  | fetchSource
deriving DecidableEq

/-- An io.Reader / response-body stream: either delivers its bytes and
reaches EOF, or delivers a prefix and then fails with a read error. -/
inductive ByteStream where
  | bytes (data : List Nat)
  | failing (delivered : List Nat) (e : GoError)

/-- ioutil.ReadAll over a `ByteStream`. -/
def streamReadAll : ByteStream → Except GoError (List Nat)
  | .bytes d => .ok d
  | .failing _ e => .error e

/-- io.Copy from a `ByteStream` into a sink: the bytes actually written,
and the read error if the stream failed. -/
def ioCopy : ByteStream → List Nat × Option GoError
  | .bytes d => (d, none)
  | .failing pre e => (pre, some e)

/-- The local file system: path ↦ (permission bits, content), plus the set
of paths on which os.OpenFile for writing fails. -/
structure FS where
  files : List (String × Nat × List Nat) := []
  unwritable : List String := []

/-- Read a file's content (os.OpenFile O_RDONLY + read); none = open fails. -/
def fsRead (fs : FS) (path : String) : Option (List Nat) :=
  match fs.files.find? (fun f => f.1 = path) with
  | some f => some f.2.2
  | none => none

/-- os.OpenFile with O_CREATE|O_RDWR|O_TRUNC: fails on unwritable paths;
creates an empty file with `perm` when absent; truncates, keeping the
existing permission bits, when present. -/
def fsOpenCreateTrunc (fs : FS) (path : String) (perm : Nat) :
    Except GoError FS :=
  if path ∈ fs.unwritable then .error (.ioErr "openfile")
  else if (fs.files.find? (fun f => f.1 = path)).isSome then
    .ok ⟨fs.files.map (fun f => if f.1 = path then (f.1, f.2.1, []) else f),
         fs.unwritable⟩
  else
    .ok ⟨(path, perm, []) :: fs.files, fs.unwritable⟩

/-- Write `data` as the content of an (already opened) file. -/
def fsWrite (fs : FS) (path : String) (data : List Nat) : FS :=
  ⟨fs.files.map (fun f => if f.1 = path then (f.1, f.2.1, data) else f),
   fs.unwritable⟩

/-- Permission bits of a file, if present. -/
def fsPerm (fs : FS) (path : String) : Option Nat :=
  match fs.files.find? (fun f => f.1 = path) with
  | some f => some f.2.1
  | none => none

/-- Content of a file, if present. -/
def fsContent (fs : FS) (path : String) : Option (List Nat) :=
  fsRead fs path

/-- The Request builder of request.go. `key` stands for the client
pointer's credential; the transport and context handles are external and
appear as parameters of the operations instead. -/
structure Request where
  key : String
  source : Source
  reader : ByteStream := .bytes []
  location : String := ""
  optimize : Option Bag := none
  flip : Option Bag := none
  resize : Option Bag := none
  scale : Option Bag := none
  crop : Option Bag := none
  watermark : Option Bag := none
  mask : Option Bag := none
  stylize : Option Bag := none
  adjust : Option Bag := none
  auto : Option Bag := none
  border : Option Bag := none
  padding : Option Bag := none
  store : Option Bag := none
  output : Option Bag := none
  webhook : Option Bag := none
  response : Option Bag := none
  cdn : Option Bag := none

/-- The Client of client.go. -/
structure Client where
  Key : String

/-- NewClient: rejects an empty API key. -/
def NewClient (key : String) : Except String Client :=
  if key = "" then .error "Invalid configuration, API key is empty"
  else .ok ⟨key⟩

/-- The two shapes Upload's interface\x7b\x7d argument can usefully take. -/
inductive UploadInput where
  | stream (s : ByteStream)
  | path (p : String)

/-- Client.Upload: a reader yields a readerSource builder, a path string a
pathSource builder. -/
def Client.Upload (c : Client) (input : UploadInput) : Request :=
  match input with
  | .stream s => { key := c.Key, source := .readerSource, reader := s }
  | .path p => { key := c.Key, source := .pathSource, location := p }

/-- Client.Fetch: a fetchSource builder bound to the URL. -/
def Client.Fetch (c : Client) (url : String) : Request :=
  { key := c.Key, source := .fetchSource, location := url }

/-- Step setters of request.go; each stores the bag verbatim, overwriting. -/
def Request.Optimize (r : Request) (data : Option Bag) : Request :=
  { r with optimize := data }

def Request.Flip (r : Request) (data : Option Bag) : Request :=
  { r with flip := data }

def Request.Resize (r : Request) (data : Option Bag) : Request :=
  { r with resize := data }

def Request.Scale (r : Request) (data : Option Bag) : Request :=
  { r with scale := data }

def Request.Crop (r : Request) (data : Option Bag) : Request :=
  { r with crop := data }

def Request.Watermark (r : Request) (data : Option Bag) : Request :=
  { r with watermark := data }

def Request.Mask (r : Request) (data : Option Bag) : Request :=
  { r with mask := data }

def Request.Stylize (r : Request) (data : Option Bag) : Request :=
  { r with stylize := data }

def Request.Adjust (r : Request) (data : Option Bag) : Request :=
  { r with adjust := data }

def Request.Auto (r : Request) (data : Option Bag) : Request :=
  { r with auto := data }

def Request.Border (r : Request) (data : Option Bag) : Request :=
  { r with border := data }

def Request.Padding (r : Request) (data : Option Bag) : Request :=
  { r with padding := data }

def Request.Store (r : Request) (data : Option Bag) : Request :=
  { r with store := data }

def Request.Output (r : Request) (data : Option Bag) : Request :=
  { r with output := data }

def Request.Webhook (r : Request) (data : Option Bag) : Request :=
  { r with webhook := data }

def Request.CDN (r : Request) (data : Option Bag) : Request :=
  { r with cdn := data }

/-- The fixed API base URL of client.go. -/
def apiURL : String := "https://api.optidash.ai/1.0"

/-- multipart.Writer.FormDataContentType (boundary kept abstract). -/
def formDataContentType : String := "multipart/form-data; boundary"

/-- One `if r.step != nil \x7b params["step"] = r.step \x7d` entry of execute. -/
def stepEntry (k : String) : Option Bag → List (String × Json)
  | some p => [(k, Json.obj p)]
  | none => []

/-- The params map built at the top of execute(). The if-chain in the
source starts at `resize`: execute never reads r.optimize or r.flip, so
those two bags are (faithfully) absent here. For a fetch source a `url`
key carrying the location is added. -/
def buildParams (r : Request) : List (String × Json) :=
  stepEntry "resize" r.resize ++
  stepEntry "scale" r.scale ++
  stepEntry "crop" r.crop ++
  stepEntry "watermark" r.watermark ++
  stepEntry "mask" r.mask ++
  stepEntry "stylize" r.stylize ++
  stepEntry "adjust" r.adjust ++
  stepEntry "auto" r.auto ++
  stepEntry "border" r.border ++
  stepEntry "padding" r.padding ++
  stepEntry "store" r.store ++
  stepEntry "output" r.output ++
  stepEntry "webhook" r.webhook ++
  stepEntry "response" r.response ++
  stepEntry "cdn" r.cdn ++
  (if r.source = .fetchSource then [("url", Json.str r.location)] else [])

/-- A part of a multipart body: the streamed `file` part or a text field
(the `data` field holding the JSON payload, kept structured since
json.Marshal is external). -/
inductive FormPart where
  | filePart (name : String) (content : List Nat)
  | fieldPart (name : String) (value : List (String × Json))

/-- The outbound request body: raw JSON payload or multipart parts. -/
inductive ReqBody where
  | jsonBody (payload : List (String × Json))
  | multipartBody (parts : List FormPart)

/-- The outbound HTTP request handed to http.Client.Do. `binaryHeader`
records whether X-Optidash-Binary: 1 was set; `authUser` the basic-auth
username (the API key; password is empty). -/
structure HttpRequest where
  method : String
  url : String
  contentType : String
  body : ReqBody
  binaryHeader : Bool
  authUser : String

/-- The `r.response["mode"] == "binary"` check of execute. -/
def hasBinaryMode (b : Option Bag) : Bool :=
  match b with
  | none => false
  | some p =>
    match lookupField p "mode" with
    | some (Json.str s) => s = "binary"
    | _ => false

/-- The request built by execute's upload branch. -/
def uploadReq (r : Request) (pb : List (String × Json)) (d : List Nat) :
    HttpRequest :=
  { method := "POST", url := apiURL ++ "/upload",
    contentType := formDataContentType,
    body := .multipartBody [.filePart "file" d, .fieldPart "data" pb],
    binaryHeader := hasBinaryMode r.response, authUser := r.key }

/-- execute() up to the transport call: builds the params map, chooses
URL / Content-Type / body by source, sets headers and basic auth. The
upload branch reads the input stream (an io.Copy into the multipart
buffer) or opens the file at the stored path, either of which can fail. -/
def executeReq (r : Request) (fs : FS) : Except GoError HttpRequest :=
  let pb := buildParams r
  match r.source with
  | .fetchSource =>
    .ok { method := "POST", url := apiURL ++ "/fetch",
          contentType := "application/json", body := .jsonBody pb,
          binaryHeader := hasBinaryMode r.response, authUser := r.key }
  | .readerSource =>
    match streamReadAll r.reader with
    | .error e => .error e
    | .ok d => .ok (uploadReq r pb d)
  | .pathSource =>
    match fsRead fs r.location with
    | none => .error (.ioErr "open")
    | some d => .ok (uploadReq r pb d)

/-- An inbound HTTP response: headers and the body stream. -/
structure HttpResponse where
  headers : List (String × String) := []
  body : ByteStream := .bytes []

/-- http.Header.Get: empty string when the header is absent. -/
def headerGet (hs : List (String × String)) (k : String) : String :=
  match hs.find? (fun h => h.1 = k) with
  | some h => h.2
  | none => ""

/-- The HTTP transport (http.Client.Do). -/
abbrev Net := HttpRequest → Except GoError HttpResponse

/-- A JSON parse outcome: a parse error, or a (possibly nil) tree. -/
abbrev ParseResult := Except GoError (Option Json)

/-- The success/code/message envelope check shared verbatim by ToJSON and
ToReader: none means the envelope passed; some e the error returned. -/
def validateEnvelope (v : Json) : Option GoError :=
  match v.get "success" with
  | none => some .noSuccess
  | some sv =>
    match sv.asBool with
    | none => some .noSuccess
    | some true => none
    | some false =>
      match v.get "code" with
      | none => some .noSuccess
      | some cv =>
        match v.get "message" with
        | none => some .noSuccess
        | some mv =>
          some (.optidash (cv.asInt.getD 0) (mv.asStr.getD ""))

/-- Outcome of ToJSON, with resource bookkeeping. -/
structure JsonOutcome where
  result : Option Json
  err : Option GoError
  sent : List HttpRequest
  bodyClosed : Bool

/-- ToJSON: execute, read the whole body, parse it, validate the
envelope. The body parser is the external fastjson Parser.ParseBytes.
ToJSON contains no Close call, so bodyClosed is false on every path. -/
def toJSON (r : Request) (fs : FS) (net : Net)
    (parse : List Nat → ParseResult) : JsonOutcome :=
  match executeReq r fs with
  | .error e => ⟨none, some e, [], false⟩
  | .ok req =>
    match net req with
    | .error e => ⟨none, some e, [req], false⟩
    | .ok resp =>
      match streamReadAll resp.body with
      | .error e => ⟨none, some e, [req], false⟩
      | .ok bodyBytes =>
        match parse bodyBytes with
        | .error e => ⟨none, some e, [req], false⟩
        | .ok none => ⟨none, none, [req], false⟩
        | .ok (some v) =>
          match validateEnvelope v with
          | some e => ⟨none, some e, [req], false⟩
          | none => ⟨some v, none, [req], false⟩

/-- Result proper of ToReader: an error, or metadata plus the open body. -/
inductive BinResult where
  | failure (e : GoError)
  | success (meta : Option Json) (body : ByteStream)

/-- Outcome of ToReader, with resource bookkeeping. -/
structure BinOutcome where
  res : BinResult
  sent : List HttpRequest
  bodyClosed : Bool

/-- The `r.response = P\x7b"mode": "binary"\x7d` assignment in ToReader. -/
def withBinaryResponse (r : Request) : Request :=
  { r with response := some [("mode", Json.str "binary")] }

/-- ToReader: reject webhook/store up front, force binary response mode,
execute, parse the X-Optidash-Meta header (external parser `ph`) when
present, validate the envelope. The deferred cleanup closes the body on
every post-response error path; on success the open body is returned. -/
def toReader (r : Request) (fs : FS) (net : Net)
    (ph : String → ParseResult) : BinOutcome :=
  if r.webhook.isSome then ⟨.failure .binaryWebhook, [], false⟩
  else if r.store.isSome then ⟨.failure .binaryStorage, [], false⟩
  else
    match executeReq (withBinaryResponse r) fs with
    | .error e => ⟨.failure e, [], false⟩
    | .ok req =>
      match net req with
      | .error e => ⟨.failure e, [req], false⟩
      | .ok resp =>
        let sm := headerGet resp.headers "X-Optidash-Meta"
        match (if sm = "" then .ok none else ph sm : ParseResult) with
        | .error e => ⟨.failure e, [req], true⟩
        | .ok none => ⟨.success none resp.body, [req], false⟩
        | .ok (some m) =>
          match validateEnvelope m with
          | some e => ⟨.failure e, [req], true⟩
          | none => ⟨.success (some m) resp.body, [req], false⟩

/-- Outcome of ToFile: result, bookkeeping, and the resulting file system.
respClosed records whether the network response body was ever closed. -/
structure FileOutcome where
  meta : Option Json
  err : Option GoError
  sent : List HttpRequest
  respClosed : Bool
  fileClosed : Bool
  fs : FS

/-- ToFile: ToReader, then open/create/truncate the file at `input` with
`perm`, copy the stream into it; the deferred Close closes the file once
it was opened. The source never closes the reader returned by ToReader. -/
def toFile (r : Request) (fs : FS) (net : Net) (ph : String → ParseResult)
    (input : String) (perm : Nat) : FileOutcome :=
  match toReader r fs net ph with
  | ⟨.failure e, sent, closed⟩ => ⟨none, some e, sent, closed, false, fs⟩
  | ⟨.success meta body, sent, closed⟩ =>
    match fsOpenCreateTrunc fs input perm with
    | .error e => ⟨none, some e, sent, closed, false, fs⟩
    | .ok fs1 =>
      let (written, cErr) := ioCopy body
      let fs2 := fsWrite fs1 input written
      match cErr with
      | some e => ⟨none, some e, sent, closed, true, fs2⟩
      | none => ⟨meta, none, sent, closed, true, fs2⟩

/-- Outcome of CopyTo: result, bookkeeping, the bytes written to the
caller's writer, and whether that writer was ever closed (the source has
no Close call on either the writer or the reader). -/
structure CopyOutcome where
  meta : Option Json
  err : Option GoError
  sent : List HttpRequest
  respClosed : Bool
  written : List Nat
  writerClosed : Bool

/-- CopyTo: ToReader, then copy the stream into the supplied writer. -/
def copyTo (r : Request) (fs : FS) (net : Net)
    (ph : String → ParseResult) : CopyOutcome :=
  match toReader r fs net ph with
  | ⟨.failure e, sent, closed⟩ => ⟨none, some e, sent, closed, [], false⟩
  | ⟨.success meta body, sent, closed⟩ =>
    let (written, cErr) := ioCopy body
    match cErr with
    | some e => ⟨none, some e, sent, closed, written, false⟩
    | none => ⟨meta, none, sent, closed, written, false⟩

/-! ## Concrete fixtures shared by the theorems below -/

/-- Empty file system. -/
def fs0 : FS := {}

/-- A transport that always fails (used where the transport must not
matter, e.g. for requests rejected before any network call). -/
def netFail : Net := fun _ => .error (.ioErr "net")

/-- A header parser that always fails (used where parsing must not occur). -/
def phFail : String → ParseResult := fun _ => .error (.ioErr "parse")

/-- A plain fetch-source builder with no steps set. -/
def rFetch : Request := { key := "k", source := .fetchSource, location := "https://img" }

/-- A builder with every one of the seventeen step bags set, each to a
distinct singleton bag. -/
def rAllSteps : Request :=
  { key := "k", source := .fetchSource, location := "https://img",
    optimize := some [("p", Json.num 1)],
    flip := some [("p", Json.num 2)],
    resize := some [("p", Json.num 3)],
    scale := some [("p", Json.num 4)],
    crop := some [("p", Json.num 5)],
    watermark := some [("p", Json.num 6)],
    mask := some [("p", Json.num 7)],
    stylize := some [("p", Json.num 8)],
    adjust := some [("p", Json.num 9)],
    auto := some [("p", Json.num 10)],
    border := some [("p", Json.num 11)],
    padding := some [("p", Json.num 12)],
    store := some [("p", Json.num 13)],
    output := some [("p", Json.num 14)],
    webhook := some [("p", Json.num 15)],
    response := some [("p", Json.num 16)],
    cdn := some [("p", Json.num 17)] }

/-! ## C1 -/

/-- C1: the claim says the serialized payload contains every step whose
bag is set. It fails on the code: execute() never serializes r.optimize
or r.flip (its if-chain starts at resize), so a builder with all
seventeen bags set sends a payload in which optimize and flip are absent
while the other fifteen steps appear. -/
theorem C1_execute_drops_optimize_and_flip :
    rAllSteps.optimize = some [("p", Json.num 1)] ∧
    rAllSteps.flip = some [("p", Json.num 2)] ∧
    lookupField (buildParams rAllSteps) "optimize" = none ∧
    lookupField (buildParams rAllSteps) "flip" = none ∧
    lookupField (buildParams rAllSteps) "resize"
      = some (Json.obj [("p", Json.num 3)]) ∧
    lookupField (buildParams rAllSteps) "cdn"
      = some (Json.obj [("p", Json.num 17)]) := by
  refine ⟨rfl, rfl, ?_, ?_, ?_, ?_⟩ <;>
    simp [buildParams, stepEntry, lookupField, rAllSteps]

/-! ## C2 -/

/-- A builder with both webhook and store set. -/
def rBothWS : Request :=
  { key := "k", source := .fetchSource, location := "https://img",
    webhook := some [], store := some [] }

/-- C2 counterexample: the claim says every builder with the store step
set gets ErrBinaryStorage from binary-mode terminal operations. On a
builder with both webhook and store set, ToReader returns
ErrBinaryWebhook (the webhook check runs first), not ErrBinaryStorage. -/
theorem C2_counterexample_both_set :
    rBothWS.store = some [] ∧
    (toReader rBothWS fs0 netFail phFail).res = .failure .binaryWebhook ∧
    GoError.binaryWebhook ≠ GoError.binaryStorage := by
  refine ⟨rfl, ?_, by decide⟩
  simp [toReader, rBothWS]

/-- C2 (amended): if webhook is set, ToReader, ToFile and CopyTo all
return ErrBinaryWebhook without performing any HTTP request; if store is
set and webhook is not, they all return ErrBinaryStorage without
performing any HTTP request. -/
theorem C2_binary_rejects_webhook_store (r : Request) (fs : FS) (net : Net)
    (ph : String → ParseResult) (path : String) (perm : Nat) :
    (r.webhook ≠ none →
      (toReader r fs net ph).res = .failure .binaryWebhook ∧
      (toReader r fs net ph).sent = [] ∧
      (toFile r fs net ph path perm).err = some .binaryWebhook ∧
      (toFile r fs net ph path perm).sent = [] ∧
      (copyTo r fs net ph).err = some .binaryWebhook ∧
      (copyTo r fs net ph).sent = []) ∧
    (r.webhook = none → r.store ≠ none →
      (toReader r fs net ph).res = .failure .binaryStorage ∧
      (toReader r fs net ph).sent = [] ∧
      (toFile r fs net ph path perm).err = some .binaryStorage ∧
      (toFile r fs net ph path perm).sent = [] ∧
      (copyTo r fs net ph).err = some .binaryStorage ∧
      (copyTo r fs net ph).sent = []) := by
  constructor
  · intro hw
    have hw1 : r.webhook.isSome = true := Option.isSome_iff_ne_none.mpr hw
    simp [toReader, toFile, copyTo, hw1]
  · intro hw hs
    have hs1 : r.store.isSome = true := Option.isSome_iff_ne_none.mpr hs
    simp [toReader, toFile, copyTo, hw, hs1]

/-- A builder with only webhook set. -/
def rWebhookOnly : Request :=
  { key := "k", source := .fetchSource, location := "https://img",
    webhook := some [] }

/-- A builder with only store set. -/
def rStoreOnly : Request :=
  { key := "k", source := .fetchSource, location := "https://img",
    store := some [] }

/-- Witness for C2: the amended theorem applied to concrete builders with
webhook (resp. store) set. -/
theorem C2_binary_rejects_webhook_store_witness :
    ((toReader rWebhookOnly fs0 netFail phFail).res
        = .failure .binaryWebhook ∧
      (toReader rWebhookOnly fs0 netFail phFail).sent = []) ∧
    ((toReader rStoreOnly fs0 netFail phFail).res
        = .failure .binaryStorage ∧
      (copyTo rStoreOnly fs0 netFail phFail).sent = []) := by
  have h1 := (C2_binary_rejects_webhook_store rWebhookOnly fs0 netFail phFail
    "p" 0).1 (by simp [rWebhookOnly])
  have h2 := (C2_binary_rejects_webhook_store rStoreOnly fs0 netFail phFail
    "p" 0).2 (by simp [rStoreOnly]) (by simp [rStoreOnly])
  exact ⟨⟨h1.1, h1.2.1⟩, ⟨h2.1, h2.2.2.2.2.2⟩⟩

/-! ## C3, C4, C5 -/

/-- A successful response with no meta header and body bytes [1, 2, 3]. -/
def respPlain : HttpResponse := { headers := [], body := .bytes [1, 2, 3] }

/-- Transport returning `respPlain`. -/
def netPlain : Net := fun _ => .ok respPlain

/-- A file system on which opening "out.png" for writing fails. -/
def fsBad : FS := { files := [], unwritable := ["out.png"] }

/-- Transport returning a response whose body fails after one byte. -/
def netReadErr : Net :=
  fun _ => .ok { headers := [], body := .failing [5] (.ioErr "read") }

/-- A body parser returning an empty JSON object (no success field). -/
def parseEmptyObj : List Nat → ParseResult :=
  fun _ => .ok (some (Json.obj []))

/-- C3: the claim says every error path reached after a network response
was obtained closes the response body. It fails on the code: after a
successful ToReader, ToFile's file-open-failure and copy-failure paths
and CopyTo's copy-failure path return without closing the reader, and
ToJSON contains no Close call at all, so its envelope-error path also
leaves the body open. Each conjunct below exhibits one such path with the
response obtained (one request sent) and respClosed/bodyClosed false. -/
theorem C3_late_error_paths_leak_response_body :
    ((toFile rFetch fsBad netPlain phFail "out.png" 420).err
        = some (.ioErr "openfile") ∧
      (toFile rFetch fsBad netPlain phFail "out.png" 420).sent.length = 1 ∧
      (toFile rFetch fsBad netPlain phFail "out.png" 420).respClosed
        = false) ∧
    ((copyTo rFetch fs0 netReadErr phFail).err = some (.ioErr "read") ∧
      (copyTo rFetch fs0 netReadErr phFail).sent.length = 1 ∧
      (copyTo rFetch fs0 netReadErr phFail).respClosed = false) ∧
    ((toJSON rFetch fs0 netPlain parseEmptyObj).err = some .noSuccess ∧
      (toJSON rFetch fs0 netPlain parseEmptyObj).sent.length = 1 ∧
      (toJSON rFetch fs0 netPlain parseEmptyObj).bodyClosed = false) := by
  refine ⟨⟨?_, ?_, ?_⟩, ⟨?_, ?_, ?_⟩, ⟨?_, ?_, ?_⟩⟩ <;> rfl

/-- A successful binary response carrying a meta header. -/
def respMeta : HttpResponse :=
  { headers := [("X-Optidash-Meta", "metaJSON")], body := .bytes [1, 2, 3] }

/-- Transport returning `respMeta`. -/
def netMeta : Net := fun _ => .ok respMeta

/-- A successful metadata envelope. -/
def metaTrue : Json := Json.obj [("success", Json.bool true)]

/-- Header parser returning `metaTrue`. -/
def phTrue : String → ParseResult := fun _ => .ok (some metaTrue)

/-- C4: on success CopyTo copies the full stream into the supplied writer
and does not close that writer — both as claimed — but, against the
claim, it never closes the underlying response stream either (the source
has no Close call on the reader returned by ToReader). -/
theorem C4_copyTo_copies_but_never_closes_stream :
    (copyTo rFetch fs0 netMeta phTrue).err = none ∧
    (copyTo rFetch fs0 netMeta phTrue).meta = some metaTrue ∧
    (copyTo rFetch fs0 netMeta phTrue).written = [1, 2, 3] ∧
    (copyTo rFetch fs0 netMeta phTrue).writerClosed = false ∧
    (copyTo rFetch fs0 netMeta phTrue).respClosed = false := by
  refine ⟨?_, ?_, ?_, ?_, ?_⟩ <;> rfl

/-- A file system already holding out.png with permission 384, content [9, 9]. -/
def fsPre : FS := { files := [("out.png", 384, [9, 9])], unwritable := [] }

/-- C5: on success ToFile creates an absent file with the given permission
bits, truncates and overwrites an existing one, writes exactly the stream
bytes, and closes the file — all as claimed — but, against the claim, it
never closes the response stream (the source only defers file.Close). -/
theorem C5_toFile_writes_file_but_never_closes_stream :
    (toFile rFetch fs0 netMeta phTrue "new.png" 420).err = none ∧
    (toFile rFetch fs0 netMeta phTrue "new.png" 420).meta = some metaTrue ∧
    fsPerm (toFile rFetch fs0 netMeta phTrue "new.png" 420).fs "new.png"
      = some 420 ∧
    fsContent (toFile rFetch fs0 netMeta phTrue "new.png" 420).fs "new.png"
      = some [1, 2, 3] ∧
    (toFile rFetch fs0 netMeta phTrue "new.png" 420).fileClosed = true ∧
    fsPerm (toFile rFetch fsPre netMeta phTrue "out.png" 511).fs "out.png"
      = some 384 ∧
    fsContent (toFile rFetch fsPre netMeta phTrue "out.png" 511).fs "out.png"
      = some [1, 2, 3] ∧
    (toFile rFetch fs0 netMeta phTrue "new.png" 420).respClosed = false := by
  refine ⟨?_, ?_, ?_, ?_, ?_, ?_, ?_, ?_⟩ <;> rfl

/-! ## Envelope helpers shared by C6, C7, C8 -/

/-- A body parser returning exactly the tree `v`. -/
def parseConst (v : Json) : List Nat → ParseResult := fun _ => .ok (some v)

/-- A header parser returning exactly the tree `v`. -/
def phConst (v : Json) : String → ParseResult := fun _ => .ok (some v)

/-- A body parser returning a nil tree with no error. -/
def parseNil : List Nat → ParseResult := fun _ => .ok none

/-- ToJSON on a response whose body parses to `v`, when the envelope
check rejects `v` with error `e`. -/
theorem toJSON_env_err (v : Json) (e : GoError)
    (h : validateEnvelope v = some e) :
    (toJSON rFetch fs0 netPlain (parseConst v)).result = none ∧
    (toJSON rFetch fs0 netPlain (parseConst v)).err = some e := by
  simp [toJSON, executeReq, rFetch, netPlain, respPlain, streamReadAll,
    parseConst, h]

/-- ToJSON on a response whose body parses to `v`, when the envelope
check accepts `v`. -/
theorem toJSON_env_ok (v : Json) (h : validateEnvelope v = none) :
    (toJSON rFetch fs0 netPlain (parseConst v)).result = some v ∧
    (toJSON rFetch fs0 netPlain (parseConst v)).err = none := by
  simp [toJSON, executeReq, rFetch, netPlain, respPlain, streamReadAll,
    parseConst, h]

/-- ToReader on a response whose meta header parses to `v`, when the
envelope check rejects `v` with error `e`. -/
theorem toReader_env_err (v : Json) (e : GoError)
    (h : validateEnvelope v = some e) :
    (toReader rFetch fs0 netMeta (phConst v)).res = .failure e := by
  simp [toReader, executeReq, withBinaryResponse, rFetch, netMeta, respMeta,
    headerGet, phConst, h]

/-- The envelope check on a tree whose success field is false and whose
code and message fields hold an integer and a string. -/
theorem validateEnvelope_false_code_message (v : Json) (c : Int) (m : String)
    (hf : v.get "success" = some (Json.bool false))
    (hc : v.get "code" = some (Json.num c))
    (hm : v.get "message" = some (Json.str m)) :
    validateEnvelope v = some (.optidash c m) := by
  simp [validateEnvelope, hf, hc, hm, Json.asBool, Json.asInt, Json.asStr]

/-- The envelope check on a tree whose success field is false and whose
code or message field is missing. -/
theorem validateEnvelope_false_missing (v : Json)
    (hf : v.get "success" = some (Json.bool false))
    (h : v.get "code" = none ∨ v.get "message" = none) :
    validateEnvelope v = some .noSuccess := by
  rcases h with h | h
  · simp [validateEnvelope, hf, h, Json.asBool]
  · rcases hc : v.get "code" with _ | cv <;>
      simp [validateEnvelope, hf, hc, h, Json.asBool]

/-- The envelope check on a tree whose success field is missing or not a
boolean. -/
theorem validateEnvelope_noBool (v : Json)
    (h : v.get "success" = none ∨
      ∃ s, v.get "success" = some s ∧ s.asBool = none) :
    validateEnvelope v = some .noSuccess := by
  rcases h with h | ⟨s, hs, hb⟩
  · simp [validateEnvelope, h]
  · simp [validateEnvelope, hs, hb]

/-! ## C6 -/

/-- C6: in both JSON mode and binary mode, a parsed tree with success =
false yields a remote OptidashError built from integer code and string
message when both fields are present, and the generic ErrNoSuccess when
code or message is missing. -/
theorem C6_failure_envelope (v : Json) (c : Int) (m : String)
    (hf : v.get "success" = some (Json.bool false)) :
    (v.get "code" = some (Json.num c) →
      v.get "message" = some (Json.str m) →
      (toJSON rFetch fs0 netPlain (parseConst v)).result = none ∧
      (toJSON rFetch fs0 netPlain (parseConst v)).err
        = some (.optidash c m) ∧
      (toReader rFetch fs0 netMeta (phConst v)).res
        = .failure (.optidash c m)) ∧
    (v.get "code" = none ∨ v.get "message" = none →
      (toJSON rFetch fs0 netPlain (parseConst v)).err = some .noSuccess ∧
      (toReader rFetch fs0 netMeta (phConst v)).res
        = .failure .noSuccess) := by
  constructor
  · intro hc hm
    have hv := validateEnvelope_false_code_message v c m hf hc hm
    exact ⟨(toJSON_env_err v _ hv).1, (toJSON_env_err v _ hv).2,
      toReader_env_err v _ hv⟩
  · intro h
    have hv := validateEnvelope_false_missing v hf h
    exact ⟨(toJSON_env_err v _ hv).2, toReader_env_err v _ hv⟩

/-- Failure envelope with code and message present. -/
def vFail : Json :=
  Json.obj [("success", Json.bool false), ("code", Json.num 42),
    ("message", Json.str "bad input")]

/-- Failure envelope with the code field missing. -/
def vFailNoCode : Json :=
  Json.obj [("success", Json.bool false), ("message", Json.str "x")]

/-- Witness for C6 at concrete envelopes. -/
theorem C6_failure_envelope_witness :
    ((toJSON rFetch fs0 netPlain (parseConst vFail)).err
        = some (.optidash 42 "bad input") ∧
      (toReader rFetch fs0 netMeta (phConst vFail)).res
        = .failure (.optidash 42 "bad input")) ∧
    ((toJSON rFetch fs0 netPlain (parseConst vFailNoCode)).err
        = some .noSuccess ∧
      (toReader rFetch fs0 netMeta (phConst vFailNoCode)).res
        = .failure .noSuccess) := by
  have h1 := (C6_failure_envelope vFail 42 "bad input" rfl).1 rfl rfl
  have h2 := (C6_failure_envelope vFailNoCode 0 "" rfl).2 (Or.inl rfl)
  exact ⟨⟨h1.2.1, h1.2.2⟩, h2⟩

/-! ## C7 -/

/-- C7: in both JSON mode and binary mode, a non-null parsed tree whose
success field is missing or not boolean-coercible yields ErrNoSuccess. -/
theorem C7_missing_or_nonbool_success (v : Json)
    (h : v.get "success" = none ∨
      ∃ s, v.get "success" = some s ∧ s.asBool = none) :
    (toJSON rFetch fs0 netPlain (parseConst v)).result = none ∧
    (toJSON rFetch fs0 netPlain (parseConst v)).err = some .noSuccess ∧
    (toReader rFetch fs0 netMeta (phConst v)).res = .failure .noSuccess := by
  have hv := validateEnvelope_noBool v h
  exact ⟨(toJSON_env_err v _ hv).1, (toJSON_env_err v _ hv).2,
    toReader_env_err v _ hv⟩

/-- An envelope with no success field at all. -/
def vNoSuccessField : Json := Json.obj [("foo", Json.num 1)]

/-- Witness for C7 at a concrete envelope missing the success field. -/
theorem C7_missing_or_nonbool_success_witness :
    (toJSON rFetch fs0 netPlain (parseConst vNoSuccessField)).err
      = some .noSuccess ∧
    (toReader rFetch fs0 netMeta (phConst vNoSuccessField)).res
      = .failure .noSuccess := by
  have h := C7_missing_or_nonbool_success vNoSuccessField (Or.inl rfl)
  exact ⟨h.2.1, h.2.2⟩

/-! ## C8 -/

/-- C8: in JSON mode a parsed tree with success = true is returned whole
(all other fields untouched) with a nil error, and a nil parsed tree is
returned as-is with a nil error. -/
theorem C8_success_passthrough (v : Json)
    (h : v.get "success" = some (Json.bool true)) :
    ((toJSON rFetch fs0 netPlain (parseConst v)).result = some v ∧
      (toJSON rFetch fs0 netPlain (parseConst v)).err = none) ∧
    ((toJSON rFetch fs0 netPlain parseNil).result = none ∧
      (toJSON rFetch fs0 netPlain parseNil).err = none) := by
  have hv : validateEnvelope v = none := by
    simp [validateEnvelope, h, Json.asBool]
  refine ⟨toJSON_env_ok v hv, ?_⟩
  constructor <;> rfl

/-- A successful envelope carrying an extra field foo = 1. -/
def vTrueFoo : Json :=
  Json.obj [("success", Json.bool true), ("foo", Json.num 1)]

/-- Witness for C8: the tree with success = true and foo = 1 is returned
whole, foo included. -/
theorem C8_success_passthrough_witness :
    (toJSON rFetch fs0 netPlain (parseConst vTrueFoo)).result
      = some vTrueFoo ∧
    ((toJSON rFetch fs0 netPlain (parseConst vTrueFoo)).result.map
      (fun v => v.get "foo")) = some (some (Json.num 1)) := by
  have h := (C8_success_passthrough vTrueFoo rfl).1
  exact ⟨h.1, by rw [h.1]; rfl⟩

/-! ## C9 -/

/-- C9: execute builds exactly one POST request: for a fetch source the
URL is the API base plus /fetch, Content-Type application/json, body the
whole JSON payload; for a stream or path source the URL is the API base
plus /upload, the body a multipart form of exactly a file part with the
raw input bytes and a data part with the JSON payload, Content-Type the
multipart boundary type; and every terminal run hands the transport that
one request only. -/
theorem C9_execute_request_shape (r : Request) (fs : FS) (d : List Nat) :
    (r.source = .fetchSource →
      executeReq r fs = .ok { method := "POST",
                              url := apiURL ++ "/fetch",
                              contentType := "application/json",
                              body := .jsonBody (buildParams r),
                              binaryHeader := hasBinaryMode r.response,
                              authUser := r.key }) ∧
    (r.source = .readerSource → r.reader = .bytes d →
      executeReq r fs = .ok { method := "POST",
                              url := apiURL ++ "/upload",
                              contentType := formDataContentType,
                              body := .multipartBody [.filePart "file" d,
                                .fieldPart "data" (buildParams r)],
                              binaryHeader := hasBinaryMode r.response,
                              authUser := r.key }) ∧
    (r.source = .pathSource → fsRead fs r.location = some d →
      executeReq r fs = .ok { method := "POST",
                              url := apiURL ++ "/upload",
                              contentType := formDataContentType,
                              body := .multipartBody [.filePart "file" d,
                                .fieldPart "data" (buildParams r)],
                              binaryHeader := hasBinaryMode r.response,
                              authUser := r.key }) ∧
    (∀ (net : Net) (parse : List Nat → ParseResult) (req : HttpRequest),
      executeReq r fs = .ok req → (toJSON r fs net parse).sent = [req]) := by
  refine ⟨?_, ?_, ?_, ?_⟩
  · intro h
    simp [executeReq, h]
  · intro h hr
    simp [executeReq, h, hr, streamReadAll, uploadReq]
  · intro h hr
    simp [executeReq, h, hr, uploadReq]
  · intro net parse req h
    simp only [toJSON, h]
    rcases h1 : net req with e | resp
    · rfl
    · rcases h2 : streamReadAll resp.body with e | bs
      · simp [h2]
      · rcases h3 : parse bs with e | ov
        · simp [h2, h3]
        · rcases ov with _ | v
          · simp [h2, h3]
          · rcases h4 : validateEnvelope v with _ | e <;> simp [h2, h3, h4]

/-- A reader-source builder holding the byte [7]. -/
def rReader : Request := { key := "k", source := .readerSource, reader := .bytes [7] }

/-- The request C9 predicts for `rReader`. -/
def reqReader : HttpRequest :=
  { method := "POST", url := apiURL ++ "/upload",
    contentType := formDataContentType,
    body := .multipartBody [.filePart "file" [7],
      .fieldPart "data" (buildParams rReader)],
    binaryHeader := hasBinaryMode rReader.response, authUser := rReader.key }

/-- Witness for C9 at a concrete reader-source builder. -/
theorem C9_execute_request_shape_witness :
    executeReq rReader fs0 = .ok reqReader ∧
    (toJSON rReader fs0 netFail parseNil).sent = [reqReader] := by
  have h1 := (C9_execute_request_shape rReader fs0 [7]).2.1 rfl rfl
  have h2 := (C9_execute_request_shape rReader fs0 [7]).2.2.2 netFail parseNil
    reqReader h1
  exact ⟨h1, h2⟩

/-! ## C10 -/

/-- C10: in binary mode, a successful HTTP exchange whose response has no
X-Optidash-Meta header makes ToReader return nil metadata, the still-open
response body and a nil error, with no envelope validation and exactly
one request performed. -/
theorem C10_no_meta_header_is_success (r : Request) (fs : FS) (net : Net)
    (ph : String → ParseResult) (req : HttpRequest) (resp : HttpResponse)
    (hw : r.webhook = none) (hs : r.store = none)
    (hex : executeReq (withBinaryResponse r) fs = .ok req)
    (hnet : net req = .ok resp)
    (hhdr : headerGet resp.headers "X-Optidash-Meta" = "") :
    toReader r fs net ph = ⟨.success none resp.body, [req], false⟩ := by
  simp [toReader, hw, hs, hex, hnet, hhdr]

/-- The binary-mode request C10 predicts for `rFetch`. -/
def reqFetchBin : HttpRequest :=
  { method := "POST", url := apiURL ++ "/fetch",
    contentType := "application/json",
    body := .jsonBody (buildParams (withBinaryResponse rFetch)),
    binaryHeader := hasBinaryMode (withBinaryResponse rFetch).response,
    authUser := rFetch.key }

/-- Witness for C10 at a concrete builder and a header-less response. -/
theorem C10_no_meta_header_is_success_witness :
    toReader rFetch fs0 netPlain phFail
      = ⟨.success none respPlain.body, [reqFetchBin], false⟩ :=
  C10_no_meta_header_is_success rFetch fs0 netPlain phFail reqFetchBin
    respPlain rfl rfl rfl rfl rfl
